import Mathlib

/-!
Verification development for a single-endpoint Flask stock-report service
(`src/main.py`). The script chains three outbound effects behind one inbound
HTTP route: a quote lookup per position (yfinance), one generative-model
inference call (Gemini), and an optional Telegram webhook POST.

Shallow embedding choices:
  * Prices and monetary amounts are modelled as `ℚ` (the Python code uses
    binary floats; all arithmetic in the script is a single subtraction,
    division and multiplication, which we carry out exactly).
  * Each outbound call's outcome is an explicit input: the yfinance provider
    answer is a `ProviderResult` (or an exception), the Gemini call outcome an
    `Except String String`, the Telegram POST outcome an `Except String Unit`.
    "The function never propagates an exception" is rendered by totality:
    every exception outcome is an ordinary input mapped to an ordinary result.
  * Side effects (HTTP POSTs issued, inference prompts sent, warnings logged)
    are returned as data so theorems can count them.
  * Python truthiness of an optional string / optional float is modelled
    explicitly (`None` and the empty string / `0.0` are falsy).
  * The random pre-call sleep in `get_stock_price_safe` is timing-only and has
    no effect on any returned value; it is not modelled.
-/

/-- One portfolio entry, as in the hard-coded demo list of `demo_handler`:
`{"symbol": ..., "cost": ..., "shares": ...}` (costs and share counts are
integer literals in the source). -/
structure Position where
  symbol : String
  cost : ℤ
  shares : ℤ
deriving DecidableEq, Repr

/-- What the yfinance provider returned when it did not raise:
`fastPrice` models `stock.fast_info.last_price` (`none` = the field was
`None`), `histClose` models the last `Close` of `stock.history(period="1d")`
(`none` = the history frame was empty). -/
structure ProviderResult where
  fastPrice : Option ℚ
  histClose : Option ℚ
deriving DecidableEq, Repr

/-- Python truthiness of an optional number: `None` and `0.0` are falsy. -/
def pyTruthy : Option ℚ → Bool
  | none => false
  | some q => decide (q ≠ 0)

/-- Python truthiness of an optional string (an env var that may be unset):
`None` and `""` are falsy. -/
def pyStrTruthy : Option String → Bool
  | none => false
  | some s => decide (s ≠ "")

/-- Embedding of `get_stock_price_safe` (src/main.py:50-73). The argument is
the provider's behaviour for this call: `Except.error ()` models any exception
raised inside the `try` block. Mirrors the source line by line: read the fast
field; if falsy, fall back to the last close of a 1-day history when that
history is non-empty; finally `return float(price) if price else 0.0`; any
exception yields the `0.0` sentinel. -/
def get_stock_price_safe (res : Except Unit ProviderResult) : ℚ :=
  match res with
  | .error _ => 0
  | .ok r =>
    let price := r.fastPrice
    let price :=
      if pyTruthy price then price
      else
        match r.histClose with
        | some c => some c
        | none => price
    if pyTruthy price then price.getD 0 else 0

/-- The fixed warning returned by `get_ai_analysis_safe` when the Gemini key
is unset (src/main.py:81). -/
def ai_warning : String := "⚠️ AI Key 未設定，無法進行分析。"

/-- The fixed instruction block prepended to the caller's data summary
(src/main.py:84-92). -/
def ai_instruction : String :=
  "你是一位金融數據教學助理。請根據提供的股市數據，"
  ++ "用繁體中文撰寫一份客觀的數據摘要。\n"
  ++ "⚠️ 規範：\n"
  ++ "1. 僅描述數據事實 (如漲跌幅、RSI數值意義)。\n"
  ++ "2. 嚴禁提供任何買賣建議或預測未來股價。\n"
  ++ "3. 語氣保持中立、學術。\n"
  ++ "數據如下：\n"

/-- Environment of the analysis requester: the `GEMINI_API_KEY` env var
(`none` = unset) and the outcome of the single `generate_content` call
(`Except.error e` models an exception with message `e`). -/
structure AIEnv where
  geminiKey : Option String
  modelResponse : Except String String
deriving Repr

/-- Result of the analysis requester: the returned text plus the list of
inference prompts actually submitted to the hosted model (empty when no
outbound inference call was attempted). -/
structure AIResult where
  text : String
  prompts : List String
deriving DecidableEq, Repr

/-- Embedding of `get_ai_analysis_safe` (src/main.py:75-99): if the key is
falsy, return the fixed warning at once (no model object, no call); otherwise
submit `instruction + data_summary` as one inference request and return its
text, or a fallback string embedding the error text when the call raised. -/
def get_ai_analysis_safe (env : AIEnv) (data_summary : String) : AIResult :=
  if pyStrTruthy env.geminiKey = false then
    { text := ai_warning, prompts := [] }
  else
    match env.modelResponse with
    | .ok t => { text := t, prompts := [ai_instruction ++ data_summary] }
    | .error e =>
      { text := "AI 分析暫時不可用 (" ++ e ++ ")"
        prompts := [ai_instruction ++ data_summary] }

/-- One outbound Telegram POST: the templated URL, the four JSON body fields
(`chat_id`, `text`, `parse_mode`, `disable_web_page_preview`) and the request
timeout in seconds — exactly the data of `requests.post(url, json=payload,
timeout=10)` at src/main.py:40-46. -/
structure PostCall where
  url : String
  chat_id : String
  text : String
  parse_mode : String
  disable_web_page_preview : Bool
  timeout : ℕ
deriving DecidableEq, Repr

/-- Environment of the notifier: the two env vars (`none` = unset) and the
outcome of the POST, were one issued (`Except.error e` models an exception). -/
structure TelegramEnv where
  token : Option String
  chatId : Option String
  postResult : Except String Unit
deriving Repr

/-- Observable outcome of one `send_telegram` invocation: the POSTs issued,
and how many warnings / errors were logged. The function always returns
normally; totality of this definition renders "never raises". -/
structure TelegramResult where
  posts : List PostCall
  warnings : ℕ
  errors : ℕ
deriving DecidableEq, Repr

/-- Embedding of `send_telegram` (src/main.py:33-48): if either credential is
falsy, log a warning and return with no POST; otherwise issue exactly one POST
built from the templated URL and the four-field JSON payload with a 10-second
timeout, logging (and swallowing) any exception the POST raises. -/
def send_telegram (env : TelegramEnv) (message : String) : TelegramResult :=
  if !pyStrTruthy env.token || !pyStrTruthy env.chatId then
    { posts := [], warnings := 1, errors := 0 }
  else
    let url := "https://api.telegram.org/bot" ++ env.token.getD "" ++ "/sendMessage"
    let payload : PostCall :=
      { url := url
        chat_id := env.chatId.getD ""
        text := message
        parse_mode := "Markdown"
        disable_web_page_preview := true
        timeout := 10 }
    match env.postResult with
    | .ok _ => { posts := [payload], warnings := 0, errors := 0 }
    | .error _ => { posts := [payload], warnings := 0, errors := 1 }

/-- Round a rational to the nearest integer, ties to even — the rounding used
by Python's fixed-point float formatting. -/
def rhe (q : ℚ) : ℤ :=
  let f := Rat.floor q
  let frac := q - (f : ℚ)
  if frac < 1/2 then f
  else if 1/2 < frac then f + 1
  else if f % 2 = 0 then f else f + 1

/-- Fixed-point decimal rendering with `d` fractional digits, as Python's
`f"{x:.df}"`: sign taken from the value (so a tiny negative rounds to
`-0.0`), magnitude rounded half-to-even at the `d`-th digit, fraction
zero-padded to `d` digits. -/
def formatFixed (q : ℚ) (d : ℕ) : String :=
  let neg := q < 0
  let a := if q < 0 then -q else q
  let m : ℕ := (rhe (a * (10 : ℚ) ^ d)).toNat
  let ip := m / 10 ^ d
  let fp := m % 10 ^ d
  let fpStr := toString fp
  let pad := String.mk (List.replicate (d - fpStr.length) '0') ++ fpStr
  (if neg then "-" else "") ++ toString ip ++ (if d = 0 then "" else "." ++ pad)

/-- Fractional digits of `r` (with `0 ≤ r < 1`), most significant first, up to
`n` of them, stopping when the remainder is exactly zero. -/
def fracDigits : ℕ → ℚ → List Char
  | 0, _ => []
  | n + 1, r =>
    if r = 0 then []
    else
      let r10 := r * 10
      let dgt := Rat.floor r10
      Char.ofNat (48 + dgt.toNat) :: fracDigits n (r10 - (dgt : ℚ))

/-- Decimal rendering of a rational standing in for Python's `repr` of a
float (used only inside the AI data-context f-string `f"現價{price}"`): integer
part, then the fractional digits (at least one, trailing zeros omitted). Python
shows the shortest round-trip decimal of the binary float; for the
decimal-representable values this embedding manipulates the two agree. -/
def pyFloatStr (q : ℚ) : String :=
  let neg := q < 0
  let a := if q < 0 then -q else q
  let ip := (Rat.floor a).toNat
  let frac := a - ((Rat.floor a : ℤ) : ℚ)
  let ds := fracDigits 30 frac
  (if neg then "-" else "") ++ toString ip ++ "."
    ++ (if ds.isEmpty then "0" else String.mk ds)

/-- The hard-coded demo watch list of `demo_handler` (src/main.py:111-114). -/
def demo_portfolio : List Position :=
  [{ symbol := "2330.TW", cost := 600, shares := 100 },
   { symbol := "AAPL", cost := 150, shares := 10 }]

/-- One iteration of the per-position loop of `demo_handler`
(src/main.py:119-130): given the provider behaviour for each ticker, produce
this position's report line and its contribution to the AI data context. When
the fetched price is positive, the line carries the profit percentage
`(price - cost) / cost * 100` formatted to one decimal and a green/red icon by
its sign, and the context gains one line; otherwise the line says no quote is
available (neutral icon) and the context gains nothing. -/
def processPosition (fetch : String → Except Unit ProviderResult)
    (item : Position) : String × String :=
  let price := get_stock_price_safe (fetch item.symbol)
  if 0 < price then
    let profit := (price - (item.cost : ℚ)) / (item.cost : ℚ) * 100
    let icon := if 0 ≤ profit then "🟢" else "🔴"
    (icon ++ " " ++ item.symbol ++ ": 現價 " ++ formatFixed price 2
       ++ " (損益 " ++ formatFixed profit 1 ++ "%)\n",
     item.symbol ++ ": 現價" ++ pyFloatStr price ++ ", 成本"
       ++ toString item.cost ++ "\n")
  else
    ("⚪ " ++ item.symbol ++ ": 無法獲取報價\n", "")

/-- The report header literal (src/main.py:116). -/
def report_header : String := "🎓 **FinBot 教學版演示報告**\n\n"

/-- The accumulation loop of `demo_handler` over the demo portfolio: first
component the report built so far (starting from the header), second the AI
data context (starting empty). -/
def buildAcc (fetch : String → Except Unit ProviderResult) : String × String :=
  demo_portfolio.foldl
    (fun acc item =>
      let pr := processPosition fetch item
      (acc.1 ++ pr.1, acc.2 ++ pr.2))
    (report_header, "")

/-- Environment of one inbound request: the provider behaviour per ticker, the
analysis-requester environment, the notifier environment, and the value of the
`send` query parameter (`none` = absent). -/
structure HandlerEnv where
  fetch : String → Except Unit ProviderResult
  ai : AIEnv
  telegram : TelegramEnv
  sendParam : Option String

/-- Observable outcome of one request: the HTTP body and status, the full
report string that was assembled, the data summaries passed to the analysis
requester, the inference prompts actually sent to the model, the messages
passed to the notifier, and the Telegram POSTs actually issued. -/
structure HandlerOutput where
  body : String
  status : ℕ
  report : String
  aiCalls : List String
  aiPrompts : List String
  telegramCalls : List String
  posts : List PostCall

/-- Embedding of the route handler `demo_handler` (src/main.py:103-144):
iterate the demo portfolio accumulating report lines and the AI data context,
call the analysis requester once on the context, append its text and the fixed
disclaimer, then either send the report over Telegram and answer with a short
confirmation (when the `send` query parameter equals `"true"`) or answer with
the report wrapped in `<pre>` tags — status 200 in both cases. -/
def demo_handler (env : HandlerEnv) : HandlerOutput :=
  let acc := buildAcc env.fetch
  let ai_data_context := acc.2
  let aiRes := get_ai_analysis_safe env.ai ai_data_context
  let report := acc.1 ++ "\n🤖 **AI 數據摘要**：\n" ++ aiRes.text
    ++ "\n\n_此為教學專案，數據僅供參考_"
  if env.sendParam = some "true" then
    let tg := send_telegram env.telegram report
    { body := "已發送 Telegram 通知"
      status := 200
      report := report
      aiCalls := [ai_data_context]
      aiPrompts := aiRes.prompts
      telegramCalls := [report]
      posts := tg.posts }
  else
    { body := "<pre>" ++ report ++ "</pre>"
      status := 200
      report := report
      aiCalls := [ai_data_context]
      aiPrompts := aiRes.prompts
      telegramCalls := []
      posts := [] }

/-- Does `pat` occur as a contiguous block at the head of `s`? -/
def startsWithChars : List Char → List Char → Bool
  | [], _ => true
  | _ :: _, [] => false
  | a :: pt, b :: st => a == b && startsWithChars pt st

/-- Does `pat` occur as a contiguous block anywhere in `s`? -/
def containsChars (pat : List Char) : List Char → Bool
  | [] => pat.isEmpty
  | s@(_ :: tl) => startsWithChars pat s || containsChars pat tl

/-- Substring test on strings, via their character lists. -/
def strContains (s pat : String) : Bool :=
  containsChars pat.toList s.toList

/-! Helper lemmas shared by the claim theorems. -/

theorem str_append_assoc (a b c : String) : a ++ b ++ c = a ++ (b ++ c) := by
  apply String.ext
  simp [List.append_assoc]

theorem buildAcc_eq (fetch : String → Except Unit ProviderResult) :
    buildAcc fetch =
      ((report_header
          ++ (processPosition fetch { symbol := "2330.TW", cost := 600, shares := 100 }).1)
          ++ (processPosition fetch { symbol := "AAPL", cost := 150, shares := 10 }).1,
       ("" ++ (processPosition fetch { symbol := "2330.TW", cost := 600, shares := 100 }).2)
          ++ (processPosition fetch { symbol := "AAPL", cost := 150, shares := 10 }).2) := rfl

theorem demo_handler_report_eq (env : HandlerEnv) :
    (demo_handler env).report =
      (buildAcc env.fetch).1 ++ "\n🤖 **AI 數據摘要**：\n"
        ++ (get_ai_analysis_safe env.ai (buildAcc env.fetch).2).text
        ++ "\n\n_此為教學專案，數據僅供參考_" := by
  by_cases h : env.sendParam = some "true" <;> simp [demo_handler, h]

theorem demo_handler_aiCalls_eq (env : HandlerEnv) :
    (demo_handler env).aiCalls = [(buildAcc env.fetch).2] := by
  by_cases h : env.sendParam = some "true" <;> simp [demo_handler, h]

theorem report_contains_line (env : HandlerEnv) (item : Position)
    (hmem : item ∈ demo_portfolio) :
    ∃ pre post, (demo_handler env).report =
      pre ++ (processPosition env.fetch item).1 ++ post := by
  rw [demo_handler_report_eq, buildAcc_eq]
  simp only [demo_portfolio, List.mem_cons, List.not_mem_nil, or_false] at hmem
  rcases hmem with h | h
  · subst h
    exact ⟨report_header,
      (processPosition env.fetch { symbol := "AAPL", cost := 150, shares := 10 }).1
        ++ ("\n🤖 **AI 數據摘要**：\n"
        ++ ((get_ai_analysis_safe env.ai
              (("" ++ (processPosition env.fetch
                  { symbol := "2330.TW", cost := 600, shares := 100 }).2)
                ++ (processPosition env.fetch
                  { symbol := "AAPL", cost := 150, shares := 10 }).2)).text
        ++ "\n\n_此為教學專案，數據僅供參考_")),
      by simp [str_append_assoc]⟩
  · subst h
    exact ⟨report_header
        ++ (processPosition env.fetch { symbol := "2330.TW", cost := 600, shares := 100 }).1,
      "\n🤖 **AI 數據摘要**：\n"
        ++ ((get_ai_analysis_safe env.ai
              (("" ++ (processPosition env.fetch
                  { symbol := "2330.TW", cost := 600, shares := 100 }).2)
                ++ (processPosition env.fetch
                  { symbol := "AAPL", cost := 150, shares := 10 }).2)).text
        ++ "\n\n_此為教學專案，數據僅供參考_"),
      by simp [str_append_assoc]⟩

/-! Concrete environments used by witnesses: a provider that answers 660 for
2330.TW and 165 for anything else, one that always raises, and handler
environments built from them. -/

def fetch660 : String → Except Unit ProviderResult :=
  fun s => if s = "2330.TW" then Except.ok ⟨some 660, none⟩ else Except.ok ⟨some 165, none⟩

def fetchNone : String → Except Unit ProviderResult := fun _ => Except.error ()

def aiNoKey : AIEnv := ⟨none, Except.ok "model text"⟩

def tgUnset : TelegramEnv := ⟨none, none, Except.ok ()⟩

def tgSet : TelegramEnv := ⟨some "TOKEN", some "42", Except.ok ()⟩

def env660 : HandlerEnv := ⟨fetch660, aiNoKey, tgUnset, none⟩

def envSend : HandlerEnv := ⟨fetch660, aiNoKey, tgSet, some "true"⟩

def envNoQuotes : HandlerEnv := ⟨fetchNone, aiNoKey, tgUnset, none⟩

/-- C4: when the `GEMINI_API_KEY` credential is absent, `get_ai_analysis_safe`
returns exactly the fixed warning string and submits no inference prompt (the
check precedes any model-object construction, so the prompt list is empty). -/
theorem get_ai_analysis_safe_no_key (env : AIEnv) (s : String)
    (h : env.geminiKey = none) :
    get_ai_analysis_safe env s = { text := ai_warning, prompts := [] } := by
  simp [get_ai_analysis_safe, pyStrTruthy, h]

/-- C4 witness: the key-absent theorem applied to a concrete environment. -/
theorem get_ai_analysis_safe_no_key_witness :
    (AIEnv.mk none (Except.ok "t")).geminiKey = none
    ∧ get_ai_analysis_safe (AIEnv.mk none (Except.ok "t")) "data"
        = { text := ai_warning, prompts := [] } :=
  ⟨rfl, get_ai_analysis_safe_no_key (AIEnv.mk none (Except.ok "t")) "data" rfl⟩

/-- C5: when either the bot token or the chat id is missing, `send_telegram`
issues zero POSTs, logs one warning, logs no error, and returns normally
(totality of the definition). -/
theorem send_telegram_missing_credentials (env : TelegramEnv) (msg : String)
    (h : env.token = none ∨ env.chatId = none) :
    send_telegram env msg = { posts := [], warnings := 1, errors := 0 } := by
  rcases h with h | h <;> simp [send_telegram, pyStrTruthy, h]

/-- C5 witness: the missing-credential theorem at a concrete environment. -/
theorem send_telegram_missing_credentials_witness :
    ((TelegramEnv.mk none (some "42") (Except.ok ())).token = none
        ∨ (TelegramEnv.mk none (some "42") (Except.ok ())).chatId = none)
    ∧ send_telegram (TelegramEnv.mk none (some "42") (Except.ok ())) "hi"
        = { posts := [], warnings := 1, errors := 0 } :=
  ⟨Or.inl rfl,
   send_telegram_missing_credentials (TelegramEnv.mk none (some "42") (Except.ok ())) "hi"
     (Or.inl rfl)⟩

/-- C9: with both credentials present (non-empty), `send_telegram` issues
exactly one POST whose JSON body has exactly the fields `chat_id`, `text`,
`parse_mode = "Markdown"` and `disable_web_page_preview = true`, to the URL
templated with the bot token, with a 10-second timeout — and the POST list is
the same whether the POST succeeds or raises (the exception is swallowed). -/
theorem send_telegram_post_payload (env : TelegramEnv) (msg t c : String)
    (ht : env.token = some t) (htn : t ≠ "")
    (hc : env.chatId = some c) (hcn : c ≠ "") :
    (send_telegram env msg).posts =
      [{ url := "https://api.telegram.org/bot" ++ t ++ "/sendMessage"
         chat_id := c
         text := msg
         parse_mode := "Markdown"
         disable_web_page_preview := true
         timeout := 10 }] := by
  cases hpr : env.postResult <;>
    simp [send_telegram, pyStrTruthy, ht, hc, htn, hcn, hpr]

/-- C9 witness: the payload theorem at a concrete environment. -/
theorem send_telegram_post_payload_witness :
    tgSet.token = some "TOKEN" ∧ "TOKEN" ≠ "" ∧ tgSet.chatId = some "42" ∧ "42" ≠ ""
    ∧ (send_telegram tgSet "report").posts =
        [{ url := "https://api.telegram.org/bot" ++ "TOKEN" ++ "/sendMessage"
           chat_id := "42"
           text := "report"
           parse_mode := "Markdown"
           disable_web_page_preview := true
           timeout := 10 }] :=
  ⟨rfl, by decide, rfl, by decide,
   send_telegram_post_payload tgSet "report" "TOKEN" "42" rfl (by decide) rfl (by decide)⟩

/-- C6: `get_stock_price_safe` maps any provider exception to the `0.0`
sentinel (and, being total, never propagates it); when the fast field holds a
non-zero price it returns that price; when the fast field is falsy it falls
back to the most recent close of the one-day history whenever that history is
non-empty. -/
theorem get_stock_price_safe_fallback (pr : ProviderResult) :
    get_stock_price_safe (Except.error ()) = 0
    ∧ (∀ v, pr.fastPrice = some v → v ≠ 0 →
        get_stock_price_safe (Except.ok pr) = v)
    ∧ (pyTruthy pr.fastPrice = false → ∀ c, pr.histClose = some c →
        get_stock_price_safe (Except.ok pr) = c) := by
  refine ⟨rfl, ?_, ?_⟩
  · intro v hv hvne
    simp [get_stock_price_safe, pyTruthy, hv, hvne]
  · intro hfast c hc
    simp only [get_stock_price_safe, hc, hfast, Bool.false_eq_true, if_false]
    by_cases h0 : c = 0
    · subst h0
      simp [pyTruthy]
    · simp [pyTruthy, h0]

/-- C6 witness: the fallback theorem exercised on concrete provider answers:
a non-zero fast price is returned as-is, and with no fast price the one-day
close is returned. -/
theorem get_stock_price_safe_fallback_witness :
    (ProviderResult.mk (some 660) none).fastPrice = some 660 ∧ (660 : ℚ) ≠ 0
    ∧ get_stock_price_safe (Except.ok (ProviderResult.mk (some 660) none)) = 660
    ∧ pyTruthy (ProviderResult.mk none (some 5)).fastPrice = false
    ∧ (ProviderResult.mk none (some 5)).histClose = some 5
    ∧ get_stock_price_safe (Except.ok (ProviderResult.mk none (some 5))) = 5 :=
  ⟨rfl, by decide,
   (get_stock_price_safe_fallback ⟨some 660, none⟩).2.1 660 rfl (by decide),
   rfl, rfl,
   (get_stock_price_safe_fallback ⟨none, some 5⟩).2.2 rfl 5 rfl⟩

/-- C8 counterexample: the claim that the quote fetcher returns a non-negative
value for every input fails — when the provider's fast field carries a
negative price, `get_stock_price_safe` returns it unchanged (the code never
clamps), so the result is strictly negative. -/
theorem get_stock_price_safe_negative_passthrough :
    get_stock_price_safe (Except.ok (ProviderResult.mk (some (-1)) none)) < 0 := by
  decide

/-- C8 (amended): the quote fetcher returns a non-negative value whenever
every price the provider reports (fast field or one-day close) is
non-negative; `0.0` is the value produced on failure (exception, no data, or a
falsy price). Negative provider prices are passed through unclamped. -/
theorem get_stock_price_safe_nonneg (r : Except Unit ProviderResult)
    (h : ∀ pr, r = Except.ok pr →
      (∀ v, pr.fastPrice = some v → 0 ≤ v) ∧ (∀ v, pr.histClose = some v → 0 ≤ v)) :
    0 ≤ get_stock_price_safe r := by
  match r with
  | .error _ => exact le_refl 0
  | .ok pr =>
    obtain ⟨hf, hh⟩ := h pr rfl
    rcases hfp : pr.fastPrice with _ | v
    · rcases hhc : pr.histClose with _ | c
      · simp [get_stock_price_safe, pyTruthy, hfp, hhc]
      · have hc := hh c hhc
        simp only [get_stock_price_safe, hfp, hhc, pyTruthy, Bool.false_eq_true, if_false]
        by_cases h0 : c = 0
        · simp [h0]
        · simpa [h0] using hc
    · have hv := hf v hfp
      by_cases hv0 : v = 0
      · subst hv0
        rcases hhc : pr.histClose with _ | c
        · simp [get_stock_price_safe, pyTruthy, hfp, hhc]
        · have hc := hh c hhc
          simp only [get_stock_price_safe, hfp, hhc, pyTruthy, decide_not]
          by_cases h0 : c = 0
          · simp [h0]
          · simpa [h0] using hc
      · simp only [get_stock_price_safe, hfp, pyTruthy, decide_not]
        simpa [hv0] using hv

/-- C8 witness: the amended non-negativity theorem at a concrete provider
answer with a non-negative fast price. -/
theorem get_stock_price_safe_nonneg_witness :
    (∀ pr, (Except.ok (ProviderResult.mk (some 660) none) : Except Unit ProviderResult)
        = Except.ok pr →
      (∀ v, pr.fastPrice = some v → 0 ≤ v) ∧ (∀ v, pr.histClose = some v → 0 ≤ v))
    ∧ 0 ≤ get_stock_price_safe (Except.ok (ProviderResult.mk (some 660) none)) := by
  have hyp : ∀ pr,
      (Except.ok (ProviderResult.mk (some 660) none) : Except Unit ProviderResult)
        = Except.ok pr →
      (∀ v, pr.fastPrice = some v → (0:ℚ) ≤ v)
        ∧ (∀ v, pr.histClose = some v → (0:ℚ) ≤ v) := by
    intro pr hpr
    cases hpr
    constructor
    · intro v hv
      cases hv
      norm_num
    · intro v hv
      cases hv
  exact ⟨hyp, get_stock_price_safe_nonneg (Except.ok ⟨some 660, none⟩) hyp⟩

/-- The provider behaviour of the C7 scenario: a fetched price of 660.0 for
every ticker. -/
def c7_fetch : String → Except Unit ProviderResult :=
  fun _ => Except.ok ⟨some 660, none⟩

/-- The position of the C7 scenario: `{"symbol": "2330.TW", "cost": 600,
"shares": 100}`, the first entry of the demo portfolio. -/
def c7_item : Position := { symbol := "2330.TW", cost := 600, shares := 100 }

theorem formatFixed_660_2 : formatFixed 660 2 = "660.00" := by
  rw [formatFixed]
  norm_num
  rw [show rhe (66000 : ℚ) = 66000 by rw [rhe, Rat.floor_def']; norm_num]
  decide

theorem formatFixed_10_1 : formatFixed 10 1 = "10.0" := by
  rw [formatFixed]
  norm_num
  rw [show rhe (100 : ℚ) = 100 by rw [rhe, Rat.floor_def']; norm_num]
  decide

theorem c7_price_eq : get_stock_price_safe (c7_fetch c7_item.symbol) = 660 := by
  decide

theorem c7_line_eq :
    (processPosition c7_fetch c7_item).1 = "🟢 2330.TW: 現價 660.00 (損益 10.0%)\n" := by
  rw [processPosition, c7_price_eq]
  norm_num [c7_item]
  rw [formatFixed_660_2, formatFixed_10_1]
  decide

/-- C7 counterexample: for the 2330.TW position at fetched price 660.0, the
report line does NOT contain the substring `+10.0%` — Python's `.1f` format
prints the positive profit without an explicit plus sign. -/
theorem c7_line_lacks_plus_sign :
    strContains (processPosition c7_fetch c7_item).1 "+10.0%" = false := by
  rw [c7_line_eq]
  decide

/-- C7 (amended): for the 2330.TW position (cost 600) at fetched price 660.0,
the report line is exactly `🟢 2330.TW: 現價 660.00 (損益 10.0%)` — the profit
shows as `10.0%` (positive, but with no explicit plus sign) and the status
icon is green. -/
theorem c7_line_scenario :
    (processPosition c7_fetch c7_item).1 = "🟢 2330.TW: 現價 660.00 (損益 10.0%)\n"
    ∧ strContains (processPosition c7_fetch c7_item).1 "🟢" = true
    ∧ strContains (processPosition c7_fetch c7_item).1 "10.0%" = true := by
  refine ⟨c7_line_eq, ?_, ?_⟩ <;> rw [c7_line_eq] <;> decide

/-- C1: for every demo-portfolio position whose fetched price is strictly
positive (with nonzero cost as a hypothesis), the handler computes the profit
percentage as `(price - cost) / cost * 100`, the position's report line
renders exactly that value (one decimal, icon by its sign), and that line
appears verbatim inside the assembled report. -/
theorem demo_handler_profit_line (env : HandlerEnv) (item : Position)
    (hmem : item ∈ demo_portfolio)
    (hp : 0 < get_stock_price_safe (env.fetch item.symbol))
    (hc : (item.cost : ℚ) ≠ 0) :
    (processPosition env.fetch item).1 =
      (if 0 ≤ (get_stock_price_safe (env.fetch item.symbol) - (item.cost : ℚ))
            / (item.cost : ℚ) * 100 then "🟢" else "🔴")
        ++ " " ++ item.symbol ++ ": 現價 "
        ++ formatFixed (get_stock_price_safe (env.fetch item.symbol)) 2
        ++ " (損益 "
        ++ formatFixed ((get_stock_price_safe (env.fetch item.symbol) - (item.cost : ℚ))
            / (item.cost : ℚ) * 100) 1
        ++ "%)\n"
    ∧ ∃ pre post, (demo_handler env).report =
        pre ++ (processPosition env.fetch item).1 ++ post := by
  refine ⟨?_, report_contains_line env item hmem⟩
  simp only [processPosition]
  rw [if_pos hp]

/-- C1 witness: the profit-line theorem at a concrete environment fetching
660 for 2330.TW. -/
theorem demo_handler_profit_line_witness :
    (Position.mk "2330.TW" 600 100) ∈ demo_portfolio
    ∧ (0:ℚ) < get_stock_price_safe (fetch660 "2330.TW")
    ∧ ((600:ℤ) : ℚ) ≠ 0
    ∧ ((processPosition fetch660 (Position.mk "2330.TW" 600 100)).1 =
        (if (0:ℚ) ≤ (get_stock_price_safe (fetch660 "2330.TW") - ((600:ℤ) : ℚ))
              / ((600:ℤ) : ℚ) * 100 then "🟢" else "🔴")
          ++ " " ++ "2330.TW" ++ ": 現價 "
          ++ formatFixed (get_stock_price_safe (fetch660 "2330.TW")) 2
          ++ " (損益 "
          ++ formatFixed ((get_stock_price_safe (fetch660 "2330.TW") - ((600:ℤ) : ℚ))
              / ((600:ℤ) : ℚ) * 100) 1
          ++ "%)\n"
        ∧ ∃ pre post, (demo_handler env660).report =
            pre ++ (processPosition fetch660 (Position.mk "2330.TW" 600 100)).1 ++ post) :=
  ⟨by decide, by decide, by norm_num,
   demo_handler_profit_line env660 (Position.mk "2330.TW" 600 100)
     (by decide) (by decide) (by norm_num)⟩

/-- C2: for every demo-portfolio position whose quote fetch yields the `0.0`
sentinel, the report line for that position says the quote is unavailable with
the neutral icon (no profit is computed: the profit branch is not taken), the
position contributes nothing to the AI data context, and the single data
summary passed to the analysis requester is exactly the accumulated context
(hence omits the position entirely); the unavailable line appears in the
report. -/
theorem demo_handler_sentinel_line (env : HandlerEnv) (item : Position)
    (hmem : item ∈ demo_portfolio)
    (h0 : get_stock_price_safe (env.fetch item.symbol) = 0) :
    (processPosition env.fetch item).1 = "⚪ " ++ item.symbol ++ ": 無法獲取報價\n"
    ∧ (processPosition env.fetch item).2 = ""
    ∧ (demo_handler env).aiCalls = [(buildAcc env.fetch).2]
    ∧ ∃ pre post, (demo_handler env).report =
        pre ++ ("⚪ " ++ item.symbol ++ ": 無法獲取報價\n") ++ post := by
  have hline : (processPosition env.fetch item).1
      = "⚪ " ++ item.symbol ++ ": 無法獲取報價\n" := by
    rw [processPosition, h0]
    norm_num
  have hctx : (processPosition env.fetch item).2 = "" := by
    rw [processPosition, h0]
    norm_num
  refine ⟨hline, hctx, demo_handler_aiCalls_eq env, ?_⟩
  obtain ⟨pre, post, hrep⟩ := report_contains_line env item hmem
  exact ⟨pre, post, by rw [hrep, hline]⟩

/-- C2 witness: the sentinel theorem at an environment whose provider raises
for every ticker. -/
theorem demo_handler_sentinel_line_witness :
    (Position.mk "AAPL" 150 10) ∈ demo_portfolio
    ∧ get_stock_price_safe (fetchNone "AAPL") = 0
    ∧ ((processPosition fetchNone (Position.mk "AAPL" 150 10)).1
          = "⚪ " ++ "AAPL" ++ ": 無法獲取報價\n"
        ∧ (processPosition fetchNone (Position.mk "AAPL" 150 10)).2 = ""
        ∧ (demo_handler envNoQuotes).aiCalls = [(buildAcc fetchNone).2]
        ∧ ∃ pre post, (demo_handler envNoQuotes).report =
            pre ++ ("⚪ " ++ "AAPL" ++ ": 無法獲取報價\n") ++ post) :=
  ⟨by decide, by decide,
   demo_handler_sentinel_line envNoQuotes (Position.mk "AAPL" 150 10)
     (by decide) (by decide)⟩

/-- C3: every request is answered with HTTP status 200; when the `send` query
parameter equals `"true"` the handler passes the report to the notifier once
and answers with the short confirmation body, and otherwise it performs no
notifier invocation (and issues no POST) and answers with the full report
wrapped in `<pre>` tags. -/
theorem demo_handler_response (env : HandlerEnv) :
    (demo_handler env).status = 200
    ∧ (env.sendParam = some "true" →
        (demo_handler env).telegramCalls = [(demo_handler env).report]
        ∧ (demo_handler env).body = "已發送 Telegram 通知")
    ∧ (¬ env.sendParam = some "true" →
        (demo_handler env).telegramCalls = []
        ∧ (demo_handler env).posts = []
        ∧ (demo_handler env).body = "<pre>" ++ (demo_handler env).report ++ "</pre>") := by
  by_cases h : env.sendParam = some "true" <;> simp [demo_handler, h]

/-- C3 witness: the response theorem at a concrete environment requesting the
send path. -/
theorem demo_handler_response_witness :
    (demo_handler envSend).status = 200
    ∧ envSend.sendParam = some "true"
    ∧ (demo_handler envSend).telegramCalls = [(demo_handler envSend).report]
    ∧ (demo_handler envSend).body = "已發送 Telegram 通知" := by
  obtain ⟨h1, h2, h3⟩ := demo_handler_response envSend
  exact ⟨h1, rfl, (h2 rfl).1, (h2 rfl).2⟩

/-- C10: on every request the analysis requester is invoked exactly once, with
the data context accumulated over all positions (so the call happens after the
whole portfolio is processed); in particular when every quote fetch yields the
`0.0` sentinel that context is the empty string. -/
theorem demo_handler_ai_called_once (env : HandlerEnv) :
    (demo_handler env).aiCalls = [(buildAcc env.fetch).2]
    ∧ ((∀ item ∈ demo_portfolio, get_stock_price_safe (env.fetch item.symbol) = 0) →
        (buildAcc env.fetch).2 = "") := by
  refine ⟨demo_handler_aiCalls_eq env, ?_⟩
  intro hall
  have h1 := hall { symbol := "2330.TW", cost := 600, shares := 100 } (by simp [demo_portfolio])
  have h2 := hall { symbol := "AAPL", cost := 150, shares := 10 } (by simp [demo_portfolio])
  have e1 : (processPosition env.fetch
      { symbol := "2330.TW", cost := 600, shares := 100 }).2 = "" := by
    rw [processPosition, h1]
    norm_num
  have e2 : (processPosition env.fetch
      { symbol := "AAPL", cost := 150, shares := 10 }).2 = "" := by
    rw [processPosition, h2]
    norm_num
  rw [buildAcc_eq]
  simp [e1, e2]

/-- C10 witness: the single-invocation theorem at an environment whose
provider raises for every ticker. -/
theorem demo_handler_ai_called_once_witness :
    (demo_handler envNoQuotes).aiCalls = [(buildAcc envNoQuotes.fetch).2]
    ∧ (∀ item ∈ demo_portfolio,
        get_stock_price_safe (envNoQuotes.fetch item.symbol) = 0)
    ∧ (buildAcc envNoQuotes.fetch).2 = "" := by
  have h := demo_handler_ai_called_once envNoQuotes
  have hall : ∀ item ∈ demo_portfolio,
      get_stock_price_safe (envNoQuotes.fetch item.symbol) = 0 := by decide
  exact ⟨h.1, hall, h.2 hall⟩
